import Mathlib

/-!
Verification of the clickhelper repository (src/clickhelper/__init__.py) against
its natural-language specification.

Shallow embedding conventions:
- HTTP calls and other external effects are passed in as oracle functions
  (for example, a polling loop receives the sequence of remote status
  responses as a function from the poll index to the response).
- Python dictionaries parsed from YAML are modelled as association lists of
  pairs, preserving insertion order; a value that is not a dictionary is
  modelled as Option.none and skipped exactly where the code skips it.
- Python strings are modelled as Lean String / List Char.  Python predicates
  such as str.isalnum are modelled by the corresponding Lean Char predicates,
  which agree with Python on the ASCII range (all inputs appearing in the
  repository and in the claims are ASCII).
- Wall-clock polling loops (while time.time() - start < max_wait) are modelled
  with an explicit fuel argument: fuel is the number of polls that the time
  budget max_wait / poll_interval admits.  Sleeping is visible as one
  recursion step.
- Machine integers do not occur; JSON numeric fields are modelled as Int
  (progress counters) or Nat (sizes, timestamps).
-/

/-! ## Python string primitives used by the code -/

/-- Python str.strip() on a list of characters: removes leading and trailing
whitespace.  (Used by ConfigLoader for filenames; after the filename filter
the only whitespace left is the space character, on which this agrees with
Python exactly.) -/
def pyStripWhitespace (l : List Char) : List Char :=
  ((l.dropWhile Char.isWhitespace).reverse.dropWhile Char.isWhitespace).reverse

/-- Python str.strip(slash) on a list of characters: removes leading and
trailing slash characters. -/
def pyStripSlashes (l : List Char) : List Char :=
  ((l.dropWhile (fun c => c == '/')).reverse.dropWhile (fun c => c == '/')).reverse

/-- Python str.replace(pat, repl, 1) for a non-empty pattern pat: replaces the
leftmost occurrence of pat, anywhere in the string, and only that one.
(The code only ever calls this with the pattern Storage/ which is non-empty;
for an empty pattern Python would instead insert repl at the start.) -/
def replaceFirstOcc (pat repl : List Char) : List Char → List Char
  | [] => []
  | c :: rest =>
    if pat.isPrefixOf (c :: rest) then repl ++ (c :: rest).drop pat.length
    else c :: replaceFirstOcc pat repl rest

/-- Whether pat occurs as a contiguous substring (for a non-empty pat). -/
def containsOccurrence (pat : List Char) : List Char → Bool
  | [] => false
  | c :: rest => pat.isPrefixOf (c :: rest) || containsOccurrence pat rest

/-- Python str.startswith, on the character lists of the two strings. -/
def strStartsWith (s pat : String) : Bool :=
  pat.data.isPrefixOf s.data

/-! ## Task Poller: ClickHelpClient.wait_for_task
Source: src/clickhelper/__init__.py lines 122-185. -/

/-- One task-status response of the ClickHelp tasks API, after the .get
defaulting the code applies (isSucceeded defaults to null, isWorking to
False, overallProgress to 0, maxOverallProgress to 100, statusText to the
empty string, taskName to the task type). -/
structure TaskStatus where
  isSucceeded : Option Bool
  isWorking : Bool
  overallProgress : Int
  maxOverallProgress : Int
  statusText : String
  taskName : String
deriving DecidableEq, Repr

/-- The completion test of wait_for_task (line 173 of the source):
isSucceeded is not null AND overall_progress >= max_progress. -/
def taskIsTerminal (s : TaskStatus) : Bool :=
  s.isSucceeded.isSome && decide (s.maxOverallProgress ≤ s.overallProgress)

/-- The message of the failure exception (line 178): status_text or a default
when status_text is falsy (empty). -/
def taskFailMessage (s : TaskStatus) : String :=
  if s.statusText = "" then "Task failed" else s.statusText

/-- The two failure exits of wait_for_task: the Exception raised for a failed
task (line 180) and the TimeoutError raised when max_wait elapses (line 185). -/
inductive TaskError where
  | taskFailed (message : String)
  | timeoutError
deriving DecidableEq, Repr

/-- ClickHelpClient.wait_for_task as a function of the remote status sequence.
poll i is the response of the i-th status fetch; fuel is the number of polls
the wall-clock budget max_wait / poll_interval admits.  Each non-terminal
response costs one sleep of poll_interval seconds, modelled as one recursion
step. -/
def wait_for_task (poll : Nat → TaskStatus) : Nat → Nat → Except TaskError TaskStatus
  | 0, _ => .error .timeoutError
  | fuel + 1, i =>
    let s := poll i
    if taskIsTerminal s then
      if s.isSucceeded = some true then .ok s
      else .error (.taskFailed (taskFailMessage s))
    else
      wait_for_task poll fuel (i + 1)

/-! ## Ingestion poller: TribbleUploader.wait_for_processing
Source: src/clickhelper/__init__.py lines 990-1024. -/

/-- One response of the ingestion status endpoint: the status string the loop
inspects, plus the rest of the response body (opaque to the loop). -/
structure IngestStatusResponse where
  status : String
  body : String
deriving DecidableEq, Repr

/-- What one iteration of wait_for_processing does with a status string. -/
inductive IngestPollStep where
  | returnResponse
  | sleepRetry (warn : Bool)
deriving DecidableEq, Repr

/-- The status vocabulary of wait_for_processing (lines 1014-1022):
processed returns, processing sleeps and retries, anything else sleeps and
retries after a warning log. -/
def classifyIngestStatus (status : String) : IngestPollStep :=
  if status = "processed" then .returnResponse
  else if status = "processing" then .sleepRetry false
  else .sleepRetry true

/-- The TimeoutError raised when max_wait elapses (line 1024). -/
inductive IngestWaitError where
  | timeoutError
deriving DecidableEq, Repr

/-- TribbleUploader.wait_for_processing as a function of the remote status
sequence, with the same fuel convention as wait_for_task. -/
def wait_for_processing (poll : Nat → IngestStatusResponse) :
    Nat → Nat → Except IngestWaitError IngestStatusResponse
  | 0, _ => .error .timeoutError
  | fuel + 1, i =>
    let r := poll i
    match classifyIngestStatus r.status with
    | .returnResponse => .ok r
    | .sleepRetry _ => wait_for_processing poll fuel (i + 1)

/-! ## Object-store retention cleanup: S3BackupUploader.cleanup_old_backups
Source: src/clickhelper/__init__.py lines 1154-1208. -/

/-- One entry of the S3 listing as built by list_backups (lines 1140-1145). -/
structure BackupObject where
  key : String
  size : Nat
  last_modified : Nat
  filename : String
deriving DecidableEq, Repr

/-- The sort order of line 1176: by last_modified, newest first.  Python
sorted(..., reverse=True) is stable, as is List.mergeSort. -/
def backupNewerFirst (a b : BackupObject) : Bool :=
  decide (b.last_modified ≤ a.last_modified)

/-- S3BackupUploader.cleanup_old_backups.  deleteOk gives the outcome of
each delete_object call (false = the call raises ClientError, which the loop
logs and skips).  Returns the value the Python function returns (the number
of deletions that succeeded) paired with the trace of attempted deletions
(the entries for which a delete_object call was issued, in order). -/
def cleanup_old_backups (deleteOk : String → Bool) (backups : List BackupObject)
    (retention_count : Nat) : Nat × List BackupObject :=
  if backups.length ≤ retention_count then (0, [])
  else
    let backups_sorted := backups.mergeSort backupNewerFirst
    let backups_to_delete := backups_sorted.drop retention_count
    let deleted_count :=
      backups_to_delete.foldl (fun acc b => if deleteOk b.key then acc + 1 else acc) 0
    (deleted_count, backups_to_delete)

/-! ## Config Compiler: ConfigLoader
Source: src/clickhelper/__init__.py lines 1256-1381. -/

/-- One publication configuration dictionary, after YAML parsing.  A field is
some v when the key is present (the code tests presence of update, visibility
and output_tags with the in operator); export_flag models the truthiness of
pub_config.get(export, False) — the field is named export_flag because
export is a Lean keyword. -/
structure PubConfig where
  title : Option String
  update : Option String
  visibility : Option String
  output_tags : Option (List String)
  export_flag : Bool
  export_preset_name : Option String
deriving DecidableEq, Repr

/-- The four action kinds _build_actions_from_publication produces. -/
inductive PubAction where
  | publish (update_mode : String) (visibility : String) (output_tags : List String)
  | export_pdf (export_preset_name : String)
  | download_pdf (output_filename : Option String)
  | upload_tribble (label : String)
deriving DecidableEq, Repr

/-- The character filter of line 1287: keep a character when it is
alphanumeric or a space, underscore, hyphen or period. -/
def pythonAllowedFilenameChar (c : Char) : Bool :=
  c.isAlphanum || c == ' ' || c == '_' || c == '-' || c == '.'

/-- Lines 1284-1302: the output_filename of the download_pdf action, derived
from the title: filter the allowed characters, strip surrounding whitespace,
append .pdf when non-empty and not already ending in .pdf; the empty string
becomes None. -/
def derived_pdf_filename (title : String) : Option String :=
  let filename := String.mk (pyStripWhitespace (title.data.filter pythonAllowedFilenameChar))
  let filename :=
    if filename ≠ "" ∧ (".pdf".data.isSuffixOf filename.data) = false then filename ++ ".pdf"
    else filename
  if filename ≠ "" then some filename else none

/-- ConfigLoader._build_actions_from_publication (lines 1256-1314). -/
def build_actions_from_publication (pc : PubConfig) : List PubAction :=
  let actions : List PubAction := []
  let actions :=
    if pc.update.isSome || pc.visibility.isSome || pc.output_tags.isSome then
      actions ++ [PubAction.publish (pc.update.getD "Partial") (pc.visibility.getD "Private")
        (pc.output_tags.getD [])]
    else actions
  let actions :=
    if pc.export_flag then
      actions ++ [PubAction.export_pdf (pc.export_preset_name.getD "Default"),
        PubAction.download_pdf (derived_pdf_filename (pc.title.getD "")),
        PubAction.upload_tribble (pc.title.getD "")]
    else actions
  actions

/-- A compiled ClickHelpPublication: identifier, title and the derived
action list. -/
structure Publication where
  publication_id : String
  title : String
  actions : List PubAction
deriving DecidableEq, Repr

/-- A compiled ClickHelpProject: identifier, display name and its
publications. -/
structure Project where
  project_id : String
  name : String
  publications : List Publication
deriving DecidableEq, Repr

/-- Python str.title() over ASCII: the first letter of each run that follows
a non-letter is uppercased, the rest lowercased. -/
def pyTitleAux : Bool → List Char → List Char
  | _, [] => []
  | prevAlpha, c :: rest =>
    if c.isAlpha then
      (if prevAlpha then c.toLower else c.toUpper) :: pyTitleAux true rest
    else
      c :: pyTitleAux false rest

/-- Line 1349: the display name of a project key: hyphens become spaces,
then title case. -/
def display_project_name (key : String) : String :=
  String.mk (pyTitleAux false (key.data.map (fun c => if c = '-' then ' ' else c)))

/-- Line 1337: the reserved top-level configuration sections that are not
project definitions. -/
def reservedConfigSections : List String :=
  ["clickhelp", "tribble", "s3_backup", "settings"]

/-- The body of the publication loop of build_projects_from_config (lines
1359-1374): a non-dictionary value is skipped, and a publication whose
derived action list is empty is not added. -/
def publication_of_entry (x : String × Option PubConfig) : Option Publication :=
  match x.2 with
  | none => none
  | some pc =>
    let actions := build_actions_from_publication pc
    if actions = [] then none
    else some { publication_id := x.1, title := pc.title.getD x.1, actions := actions }

/-- The loop step shared by the two accumulation loops of
build_projects_from_config: append the produced entity, skip a skipped one. -/
def appendOptionStep {α β : Type} (f : α → Option β) (acc : List β) (x : α) : List β :=
  match f x with
  | none => acc
  | some b => acc ++ [b]

/-- The publications accumulated for one project, in configuration order. -/
def build_publications (project_data : List (String × Option PubConfig)) : List Publication :=
  project_data.foldl (appendOptionStep publication_of_entry) []

/-- The body of the project loop of build_projects_from_config (lines
1340-1379): a non-dictionary value is skipped, and a project with zero
publications is not added. -/
def project_of_entry (kv : String × Option (List (String × Option PubConfig))) :
    Option Project :=
  match kv.2 with
  | none => none
  | some project_data =>
    let pubs := build_publications project_data
    if pubs = [] then none
    else some { project_id := kv.1, name := display_project_name kv.1, publications := pubs }

/-- ConfigLoader.build_projects_from_config (lines 1316-1381): filter the
reserved sections away, then accumulate the projects in configuration
order. -/
def build_projects_from_config
    (config : List (String × Option (List (String × Option PubConfig)))) : List Project :=
  (config.filter (fun kv => !(reservedConfigSections.contains kv.1))).foldl
    (appendOptionStep project_of_entry) []

/-! ## Ingestion workflow action loop: run_tribble_upload
Source: src/clickhelper/__init__.py lines 1616-1645. -/

/-- The client operations the ingestion workflow loop invokes. -/
inductive TribbleWorkflowEvent where
  | downloadPdf (output_filename : Option String)
  | uploadTribble (label : String)
deriving DecidableEq, Repr

/-- The loop body of run_tribble_upload (lines 1618-1641): a download_pdf
action invokes the PDF download, an upload_tribble action invokes the
ingestion upload, every other action type matches no branch and is skipped. -/
def tribbleStep (events : List TribbleWorkflowEvent) (a : PubAction) :
    List TribbleWorkflowEvent :=
  match a with
  | .download_pdf f => events ++ [.downloadPdf f]
  | .upload_tribble l => events ++ [.uploadTribble l]
  | _ => events

/-- The operations run_tribble_upload performs for one publication, in
order, when no operation raises. -/
def run_tribble_upload_actions (actions : List PubAction) : List TribbleWorkflowEvent :=
  actions.foldl tribbleStep []

/-- The event an action would contribute, as a partial map: used to state
that the loop is exactly a filter of the action list. -/
def tribbleEventOfAction : PubAction → Option TribbleWorkflowEvent
  | .download_pdf f => some (.downloadPdf f)
  | .upload_tribble l => some (.uploadTribble l)
  | _ => none

/-! ## Storage file deletion: ClickHelpClient.delete_storage_file
Source: src/clickhelper/__init__.py lines 414-439. -/

/-- Line 425: the path sent to the delete endpoint:
file_path.replace(Storage/, empty, 1).strip(slash). -/
def delete_storage_relative_path (file_path : String) : String :=
  String.mk (pyStripSlashes (replaceFirstOcc "Storage/".data [] file_path.data))

/-- Line 427: the full URL of the DELETE request. -/
def delete_storage_endpoint (portal_url file_path : String) : String :=
  portal_url ++ "/api/v1/storage/" ++ delete_storage_relative_path file_path

/-! ## Project backup step: ClickHelpProject.backup_project
Source: src/clickhelper/__init__.py lines 533-579. -/

/-- The failure exits of ClickHelpProject.backup_project. -/
inductive BackupStepError where
  | noTaskKey
  | taskError (e : TaskError)
  | noOutputFilename
  | downloadFailed (message : String)
deriving DecidableEq, Repr

/-- ClickHelpProject.backup_project as a function of the outcomes of its
remote sub-operations: the taskKey of the start-backup response, the task
poller outcome, the outputFileName of the start-backup response, the backup
download outcome (the local path on success), and the storage-file deletion
outcome.  The deletion is wrapped in try/except (lines 571-576): its outcome
never changes the returned value. -/
def project_backup_project (task_key : Option String)
    (wait_result : Except TaskError TaskStatus) (output_filename : Option String)
    (download_result : Except String String) (delete_result : Except String Bool) :
    Except BackupStepError String :=
  match task_key with
  | none => .error .noTaskKey
  | some tk =>
    if tk = "" then .error .noTaskKey
    else
      match wait_result with
      | .error e => .error (.taskError e)
      | .ok _ =>
        match output_filename with
        | none => .error .noOutputFilename
        | some ofn =>
          if ofn = "" then .error .noOutputFilename
          else
            match download_result with
            | .error msg => .error (.downloadFailed msg)
            | .ok backup_path =>
              match delete_result with
              | .ok _ => .ok backup_path
              | .error _ => .ok backup_path

/-! ## Ingestion upload guard: ClickHelpPublication.upload_to_tribble
Source: src/clickhelper/__init__.py lines 744-788. -/

/-- A request sent to the ingestion service. -/
inductive TribbleRequest where
  | upload (file_path : String) (label : String)
deriving DecidableEq, Repr

/-- The failure exits of upload_to_tribble that precede any request. -/
inductive UploadToTribbleError where
  | valueError (message : String)
  | fileNotFoundError (message : String)
deriving DecidableEq, Repr

/-- The per-publication state upload_to_tribble reads: the last export path
recorded by a successful download_pdf call. -/
structure PublicationState where
  last_export_path : Option String
deriving DecidableEq, Repr

/-- The state of a freshly constructed ClickHelpPublication (line 604):
_last_export_path is None until a download_pdf call succeeds. -/
def initial_publication_state : PublicationState :=
  { last_export_path := none }

/-- The Python expression a or b on optional strings: a when truthy
(present and non-empty), else b. -/
def pyOrString (a b : Option String) : Option String :=
  match a with
  | some s => if s = "" then b else some s
  | none => b

/-- ClickHelpPublication.upload_to_tribble (lines 744-788), up to the upload
request: the guard raises ValueError when neither pdf_path nor the recorded
last export path is truthy, then FileNotFoundError when the file is missing,
and only then issues the upload request.  Returns the outcome together with
the trace of requests sent to the ingestion service.  (The post-upload
status polling is modelled separately by wait_for_processing.) -/
def upload_to_tribble (st : PublicationState) (title : String) (label pdf_path : Option String)
    (file_exists : String → Bool) : Except UploadToTribbleError String × List TribbleRequest :=
  match pyOrString pdf_path st.last_export_path with
  | none =>
    (.error (.valueError "No PDF file available. Run export_to_pdf() first or provide pdf_path."), [])
  | some fp =>
    if fp = "" then
      (.error (.valueError "No PDF file available. Run export_to_pdf() first or provide pdf_path."), [])
    else if file_exists fp = false then
      (.error (.fileNotFoundError ("PDF file not found: " ++ fp)), [])
    else
      let doc_label := (pyOrString label (some title)).getD title
      (.ok fp, [.upload fp doc_label])

/-! ## Publish workflow reconciliation pass: run_publications
Source: src/clickhelper/__init__.py lines 1420-1494. -/

/-- One entry of the flat listing GET /api/v1/projects returns: projects
have parentId null, publications have parentId set to their project. -/
structure RemoteItem where
  id : String
  parentId : Option String
deriving DecidableEq, Repr

/-- The observable events of the reconciliation pass, per publication. -/
inductive ReconEvent where
  | createRequested (project_id : String) (pub_id : String)
  | pollStarted (task_key : String)
  | creationError (pub_id : String)
deriving DecidableEq, Repr

/-- The parameter names of ClickHelpClient.wait_for_task (line 122):
task_key, task_type, max_wait, poll_interval. -/
def waitForTaskParamNames : List String :=
  ["task_key", "task_type", "max_wait", "poll_interval"]

/-- The keyword names run_publications passes to wait_for_task at lines
1479-1483: task_key, max_wait_seconds, poll_interval. -/
def reconcileWaitKwargNames : List String :=
  ["task_key", "max_wait_seconds", "poll_interval"]

/-- Python keyword-argument binding: a call is accepted only when every
keyword names a parameter of the callee; otherwise it raises TypeError
before the callee body runs. -/
def kwargsAccepted (params kwargs : List String) : Bool :=
  kwargs.all (fun k => params.contains k)

/-- The reconciliation step of run_publications for one configured
publication (lines 1449-1494).  create_task_key is the taskKey field of the
create_publication response.  When the publication already exists remotely
nothing happens.  Otherwise create_publication is called; if a truthy
taskKey came back the code calls wait_for_task with the keyword arguments
reconcileWaitKwargNames — when that binding is rejected the call raises
TypeError inside the try block, which the except handler logs as a creation
failure (creationError) and the loop continues; only if the binding were
accepted would the task poller run (pollStarted). -/
def reconcile_publication (existing_pub_ids : List String) (project_id pub_id : String)
    (create_task_key : Option String) : List ReconEvent :=
  if existing_pub_ids.contains pub_id then []
  else
    ReconEvent.createRequested project_id pub_id ::
      (match create_task_key with
       | some task_key =>
         if task_key = "" then []
         else if kwargsAccepted waitForTaskParamNames reconcileWaitKwargNames then
           [ReconEvent.pollStarted task_key]
         else
           [ReconEvent.creationError pub_id]
       | none => [])

/-- The whole reconciliation pass of run_publications (lines 1420-1494):
projects absent remotely are skipped with a warning; for each configured
publication of a present project the per-publication step runs.
(The update of existing_publications at line 1488 sits behind a success test
that is unreachable — see the claim C2 theorem — so the lookup dictionary is
constant across the loop and the pass is a flat map.) -/
def run_publications_reconcile
    (config : List (String × Option (List (String × Option PubConfig))))
    (remote : List RemoteItem) (create_task_key : String → String → Option String) :
    List ReconEvent :=
  let existing_project_ids := (remote.filter (fun it => it.parentId.isNone)).map (fun it => it.id)
  let existing_pub_ids := (remote.filter (fun it => !it.parentId.isNone)).map (fun it => it.id)
  (config.filter (fun kv => !(reservedConfigSections.contains kv.1))).flatMap
    (fun kv =>
      match kv.2 with
      | none => []
      | some project_data =>
        if existing_project_ids.contains kv.1 then
          project_data.flatMap
            (fun pub =>
              match pub.2 with
              | none => []
              | some _pc =>
                reconcile_publication existing_pub_ids kv.1 pub.1 (create_task_key kv.1 pub.1))
        else [])

/-- Whether a reconciliation event is a task-poller invocation. -/
def isPollEvent : ReconEvent → Bool
  | .pollStarted _ => true
  | _ => false

/-- A concrete configuration for the claim C2 evaluation: one project docs
with one publication guide that carries a title and the export flag. -/
def c2ExampleConfig : List (String × Option (List (String × Option PubConfig))) :=
  [("docs", some [("guide", some
    { title := some "Guide", update := none, visibility := none, output_tags := none,
      export_flag := true, export_preset_name := none })])]

/-- A concrete remote listing for the claim C2 evaluation: the project docs
exists remotely, the publication guide does not. -/
def c2ExampleRemote : List RemoteItem :=
  [{ id := "docs", parentId := none }, { id := "other-pub", parentId := some "docs" }]

/-- A concrete create_publication outcome for the claim C2 evaluation: the
creation response carries the task key T1. -/
def c2ExampleCreate (_project_id _pub_id : String) : Option String :=
  some "T1"

/-- The filename derivation as the specification words it, for comparison
with the code embedding derived_pdf_filename: keep only alphanumerics,
spaces, underscores, hyphens and periods; trim surrounding whitespace; force
a .pdf suffix on the non-empty result (no filename otherwise). -/
def claimed_pdf_filename (t : String) : Option String :=
  let cleaned := String.mk (pyStripWhitespace (t.data.filter pythonAllowedFilenameChar))
  if cleaned = "" then none
  else if ".pdf".data.isSuffixOf cleaned.data then some cleaned
  else some (cleaned ++ ".pdf")

/-! ## Theorems -/

/-- Claim C1: for every task-status response, wait_for_task treats the task
as terminal on that poll exactly when isSucceeded is non-null and
overallProgress is at least maxOverallProgress; when terminal and succeeded
it returns that status immediately on that poll, when terminal and failed it
raises the task-failed error carrying the status text (or the default text
when the status text is empty), and on a non-terminal response it sleeps one
poll interval and polls again; when every response within the time budget is
non-terminal it raises the timeout error. -/
theorem wait_for_task_terminal_rule (poll : Nat → TaskStatus) (fuel i : Nat) (s : TaskStatus) :
    (taskIsTerminal s = true ↔
      (s.isSucceeded ≠ none ∧ s.maxOverallProgress ≤ s.overallProgress))
    ∧ (taskIsTerminal (poll i) = true → (poll i).isSucceeded = some true →
        wait_for_task poll (fuel + 1) i = .ok (poll i))
    ∧ (taskIsTerminal (poll i) = true → (poll i).isSucceeded = some false →
        wait_for_task poll (fuel + 1) i =
          .error (.taskFailed (taskFailMessage (poll i))))
    ∧ (taskIsTerminal (poll i) = false →
        wait_for_task poll (fuel + 1) i = wait_for_task poll fuel (i + 1))
    ∧ ((∀ k, k < fuel → taskIsTerminal (poll (i + k)) = false) →
        wait_for_task poll fuel i = .error .timeoutError) := by
  refine ⟨?_, ?_, ?_, ?_, ?_⟩
  · unfold taskIsTerminal
    cases h : s.isSucceeded <;> simp [h]
  · intro ht hs
    simp [wait_for_task, ht, hs]
  · intro ht hs
    simp [wait_for_task, ht, hs]
  · intro ht
    simp [wait_for_task, ht]
  · clear s
    induction fuel generalizing i with
    | zero => intro _; rfl
    | succ n ih =>
      intro h
      have h0 : taskIsTerminal (poll i) = false := by
        have := h 0 (Nat.succ_pos n)
        simpa using this
      have hrest : ∀ k, k < n → taskIsTerminal (poll (i + 1 + k)) = false := by
        intro k hk
        have := h (k + 1) (by omega)
        simpa [Nat.add_assoc, Nat.add_comm 1 k] using this
      simp [wait_for_task, h0]
      exact ih (i + 1) hrest

/-- Claim C9: wait_for_processing returns on the first poll whose status
string equals processed (returning that response), sleeps and retries when
the status is processing or any other string — warning exactly for the
strings that are neither processed nor processing — and raises the timeout
error when no response within the time budget has status processed. -/
theorem wait_for_processing_rule (poll : Nat → IngestStatusResponse) (fuel i : Nat)
    (st : String) :
    (classifyIngestStatus st = .returnResponse ↔ st = "processed")
    ∧ (classifyIngestStatus st = .sleepRetry true ↔
        (st ≠ "processed" ∧ st ≠ "processing"))
    ∧ classifyIngestStatus "processing" = .sleepRetry false
    ∧ ((poll i).status = "processed" →
        wait_for_processing poll (fuel + 1) i = .ok (poll i))
    ∧ ((poll i).status ≠ "processed" →
        wait_for_processing poll (fuel + 1) i = wait_for_processing poll fuel (i + 1))
    ∧ ((∀ k, k < fuel → (poll (i + k)).status ≠ "processed") →
        wait_for_processing poll fuel i = .error .timeoutError) := by
  refine ⟨?_, ?_, ?_, ?_, ?_, ?_⟩
  · unfold classifyIngestStatus
    split
    · simp_all
    · split <;> simp_all
  · unfold classifyIngestStatus
    split
    · simp_all
    · split <;> simp_all
  · rfl
  · intro h
    simp [wait_for_processing, classifyIngestStatus, h]
  · intro h
    by_cases hp : (poll i).status = "processing" <;>
      simp [wait_for_processing, classifyIngestStatus, h, hp]
  · induction fuel generalizing i with
    | zero => intro _; rfl
    | succ n ih =>
      intro h
      have h0 : (poll i).status ≠ "processed" := by
        have := h 0 (Nat.succ_pos n)
        simpa using this
      have hrest : ∀ k, k < n → (poll (i + 1 + k)).status ≠ "processed" := by
        intro k hk
        have := h (k + 1) (by omega)
        simpa [Nat.add_assoc, Nat.add_comm 1 k] using this
      have step := ih (i + 1) hrest
      by_cases hp : (poll i).status = "processing" <;>
        simp [wait_for_processing, classifyIngestStatus, h0, hp, step]

/-- The counting loop of cleanup_old_backups: folding the success counter
over the deletion list counts exactly the successful deletions. -/
theorem cleanup_foldl_count (p : BackupObject → Bool) (l : List BackupObject) (acc : Nat) :
    l.foldl (fun a b => if p b then a + 1 else a) acc = acc + l.countP p := by
  induction l generalizing acc with
  | nil => simp
  | cons x xs ih =>
    simp only [List.foldl_cons, List.countP_cons, ih]
    split <;> omega

/-- The comparison backupNewerFirst is transitive. -/
theorem backupNewerFirst_trans (a b c : BackupObject) :
    backupNewerFirst a b = true → backupNewerFirst b c = true →
    backupNewerFirst a c = true := by
  simp only [backupNewerFirst, decide_eq_true_eq]
  omega

/-- The comparison backupNewerFirst is total. -/
theorem backupNewerFirst_total (a b : BackupObject) :
    (backupNewerFirst a b || backupNewerFirst b a) = true := by
  simp only [backupNewerFirst, Bool.or_eq_true, decide_eq_true_eq]
  omega

/-- Claim C3: on a listing of size M with retention count N,
cleanup_old_backups deletes nothing when M is at most N; otherwise it
attempts exactly M - N deletions; every attempted entry has at least N + 1
entries of the listing (itself included) at least as recently modified, so
none of the N most recently modified entries is ever attempted, whatever the
listing order; the returned count is the number of attempted deletions whose
delete call succeeded — an individual failure is skipped; and the attempted
list does not depend on which delete calls fail, so a failure aborts
nothing. -/
theorem cleanup_old_backups_rule (deleteOk : String → Bool) (backups : List BackupObject)
    (retention_count : Nat) :
    (backups.length ≤ retention_count →
      cleanup_old_backups deleteOk backups retention_count = (0, []))
    ∧ (retention_count < backups.length →
      (cleanup_old_backups deleteOk backups retention_count).2.length
        = backups.length - retention_count)
    ∧ (∀ b ∈ (cleanup_old_backups deleteOk backups retention_count).2,
        retention_count + 1 ≤
          backups.countP (fun x => decide (b.last_modified ≤ x.last_modified)))
    ∧ (cleanup_old_backups deleteOk backups retention_count).1
        = (cleanup_old_backups deleteOk backups retention_count).2.countP
            (fun b => deleteOk b.key)
    ∧ (∀ deleteOk2 : String → Bool,
        (cleanup_old_backups deleteOk2 backups retention_count).2
          = (cleanup_old_backups deleteOk backups retention_count).2) := by
  by_cases hle : backups.length ≤ retention_count
  · refine ⟨fun _ => by simp [cleanup_old_backups, hle], fun h => absurd h (by omega),
      ?_, ?_, ?_⟩
    · simp [cleanup_old_backups, hle]
    · simp [cleanup_old_backups, hle]
    · intro deleteOk2
      simp [cleanup_old_backups, hle]
  · have hperm := List.mergeSort_perm backups backupNewerFirst
    have hlen : (backups.mergeSort backupNewerFirst).length = backups.length :=
      hperm.length_eq
    refine ⟨fun h => absurd h hle, ?_, ?_, ?_, ?_⟩
    · intro _
      simp [cleanup_old_backups, hle, hlen]
    · intro b hb
      simp only [cleanup_old_backups, if_neg hle] at hb
      set p : BackupObject → Bool := fun x => decide (b.last_modified ≤ x.last_modified)
        with hp
      have hsorted : List.Pairwise (fun a c => backupNewerFirst a c = true)
          (backups.mergeSort backupNewerFirst) :=
        List.sorted_mergeSort backupNewerFirst_trans backupNewerFirst_total backups
      have hsplit := List.take_append_drop retention_count (backups.mergeSort backupNewerFirst)
      rw [← hsplit] at hsorted
      obtain ⟨-, -, hcross⟩ := List.pairwise_append.mp hsorted
      have htake : ∀ a ∈ (backups.mergeSort backupNewerFirst).take retention_count,
          p a = true := by
        intro a ha
        have := hcross a ha b hb
        simpa [backupNewerFirst, hp] using this
      have hcount1 : ((backups.mergeSort backupNewerFirst).take retention_count).countP p
          = retention_count := by
        rw [List.countP_eq_length.mpr htake, List.length_take]
        omega
      have hcount2 : 0 < ((backups.mergeSort backupNewerFirst).drop retention_count).countP p := by
        rw [List.countP_pos_iff]
        exact ⟨b, hb, by simp [hp]⟩
      have : backups.countP p = (backups.mergeSort backupNewerFirst).countP p :=
        (hperm.countP_eq p).symm
      rw [this, ← hsplit, List.countP_append, hcount1]
      omega
    · simp only [cleanup_old_backups, if_neg hle]
      rw [cleanup_foldl_count (fun b => deleteOk b.key)
        ((backups.mergeSort backupNewerFirst).drop retention_count) 0]
      omega
    · intro deleteOk2
      simp [cleanup_old_backups, hle]

/-- Folding an accumulate-when-some step over a list is a filterMap. -/
theorem foldl_option_append {α β : Type} (f : α → Option β) (l : List α) (acc : List β) :
    l.foldl (appendOptionStep f) acc = acc ++ l.filterMap f := by
  induction l generalizing acc with
  | nil => simp
  | cons x xs ih =>
    simp only [List.foldl_cons, List.filterMap_cons]
    cases hf : f x <;> simp [appendOptionStep, hf, ih]

/-- Appending the .pdf extension never yields the empty string. -/
theorem append_pdf_ne_empty (s : String) : s ++ ".pdf" ≠ "" := by
  intro h
  have := congrArg String.data h
  simp [String.data_append] at this

/-- Claim C4: for every publication configuration with a truthy export
property, the compiled download action carries the filename derived from the
title, and that derivation is exactly the claimed rule (keep only
alphanumerics, spaces, underscores, hyphens and periods; trim; force a .pdf
suffix on a non-empty result); in particular the title Release Notes: v2.0!
compiles to the filename Release Notes v2.0.pdf (the period of v2.0 is in
the allowed set and survives). -/
theorem export_pdf_filename_rule (pc : PubConfig) (t : String) :
    (pc.export_flag = true →
      PubAction.download_pdf (derived_pdf_filename (pc.title.getD ""))
        ∈ build_actions_from_publication pc)
    ∧ derived_pdf_filename t = claimed_pdf_filename t
    ∧ derived_pdf_filename "Release Notes: v2.0!" = some "Release Notes v2.0.pdf" := by
  refine ⟨?_, ?_, by decide⟩
  · intro he
    simp only [build_actions_from_publication, he, if_true]
    split <;> simp
  · simp only [derived_pdf_filename, claimed_pdf_filename]
    by_cases h0 : String.mk (pyStripWhitespace (t.data.filter pythonAllowedFilenameChar)) = ""
    · simp [h0]
    · by_cases hsuf :
        (".pdf".data.isSuffixOf
          (String.mk (pyStripWhitespace (t.data.filter pythonAllowedFilenameChar))).data) = true
      · simp [h0, hsuf]
      · simp [h0, hsuf, append_pdf_ne_empty]

/-- Claim C5: the compiled project graph contains no empty entity: every
compiled project has at least one publication and every compiled publication
has at least one action; and a publication configuration with none of the
update, visibility, output_tags and export keys derives the empty action
list (and is therefore dropped). -/
theorem compiled_graph_no_empty_entities
    (config : List (String × Option (List (String × Option PubConfig)))) (pc : PubConfig) :
    (∀ proj ∈ build_projects_from_config config,
        proj.publications ≠ [] ∧ ∀ pub ∈ proj.publications, pub.actions ≠ [])
    ∧ (pc.update = none ∧ pc.visibility = none ∧ pc.output_tags = none ∧
        pc.export_flag = false →
        build_actions_from_publication pc = []) := by
  constructor
  · intro proj hproj
    rw [build_projects_from_config, foldl_option_append, List.nil_append] at hproj
    obtain ⟨kv, -, hkv⟩ := List.mem_filterMap.mp hproj
    obtain ⟨k, pd⟩ := kv
    cases pd with
    | none => exact absurd hkv (by simp [project_of_entry])
    | some project_data =>
      simp only [project_of_entry] at hkv
      split at hkv
      · exact absurd hkv (by simp)
      · rename_i hne
        injection hkv with h
        subst h
        refine ⟨by simpa using hne, ?_⟩
        intro pub hpub
        simp only at hpub
        rw [build_publications, foldl_option_append, List.nil_append] at hpub
        obtain ⟨x, -, hx⟩ := List.mem_filterMap.mp hpub
        obtain ⟨pid, pcfg⟩ := x
        cases pcfg with
        | none => exact absurd hx (by simp [publication_of_entry])
        | some pc2 =>
          simp only [publication_of_entry] at hx
          split at hx
          · exact absurd hx (by simp)
          · rename_i hane
            injection hx with h2
            subst h2
            simpa using hane
  · rintro ⟨hu, hv, ho, he⟩
    simp [build_actions_from_publication, hu, hv, ho, he]

/-- The ingestion workflow loop is a filter of the action list. -/
theorem tribble_foldl_eq (actions : List PubAction) (acc : List TribbleWorkflowEvent) :
    actions.foldl tribbleStep acc = acc ++ actions.filterMap tribbleEventOfAction := by
  induction actions generalizing acc with
  | nil => simp
  | cons a as ih =>
    cases a <;> simp [tribbleStep, tribbleEventOfAction, List.filterMap_cons, ih]

/-- Claim C7: the ingestion workflow executes exactly the download and
upload actions of a publication, in their declared order, and skips every
publish and export action; on the compiled example publication Guide with
export enabled, it performs the download and the upload and skips the PDF
export. -/
theorem tribble_workflow_action_filter (actions : List PubAction) :
    run_tribble_upload_actions actions = actions.filterMap tribbleEventOfAction
    ∧ (∀ u v w, tribbleEventOfAction (.publish u v w) = none)
    ∧ (∀ p, tribbleEventOfAction (.export_pdf p) = none)
    ∧ (∀ f, tribbleEventOfAction (.download_pdf f) = some (.downloadPdf f))
    ∧ (∀ l, tribbleEventOfAction (.upload_tribble l) = some (.uploadTribble l))
    ∧ run_tribble_upload_actions (build_actions_from_publication
        { title := some "Guide", update := none, visibility := none, output_tags := none,
          export_flag := true, export_preset_name := none })
        = [.downloadPdf (some "Guide.pdf"), .uploadTribble "Guide"] := by
  refine ⟨?_, fun u v w => rfl, fun p => rfl, fun f => rfl, fun l => rfl, by decide⟩
  rw [run_tribble_upload_actions, tribble_foldl_eq, List.nil_append]

/-- When the pattern is a prefix of the list, replacing its first occurrence
with nothing drops exactly the leading pattern. -/
theorem replaceFirstOcc_of_isPrefix (pat l : List Char) (hne : pat ≠ [])
    (h : pat.isPrefixOf l = true) : replaceFirstOcc pat [] l = l.drop pat.length := by
  cases l with
  | nil =>
    cases pat with
    | nil => exact absurd rfl hne
    | cons p ps => simp [List.isPrefixOf] at h
  | cons c rest => simp [replaceFirstOcc, h]

/-- When the pattern occurs nowhere in the list, replacing its first
occurrence changes nothing. -/
theorem replaceFirstOcc_of_not_contains (pat repl l : List Char)
    (h : containsOccurrence pat l = false) : replaceFirstOcc pat repl l = l := by
  induction l with
  | nil => rfl
  | cons c rest ih =>
    simp only [containsOccurrence, Bool.or_eq_false_iff] at h
    simp [replaceFirstOcc, h.1, ih h.2]

/-- Claim C6 counterexample: the path Backups/Storage/a.zip has no leading
Storage/ segment, yet delete_storage_file modifies it — the code removes the
first occurrence of Storage/ anywhere, not only a leading one. -/
theorem delete_storage_strips_interior_occurrence :
    strStartsWith "Backups/Storage/a.zip" "Storage/" = false
    ∧ delete_storage_relative_path "Backups/Storage/a.zip" = "Backups/a.zip"
    ∧ delete_storage_relative_path "Backups/Storage/a.zip" ≠ "Backups/Storage/a.zip" := by
  decide

/-- Claim C6 as amended: before issuing the delete request,
delete_storage_file removes the first occurrence of the literal substring
Storage/ wherever it appears in the path — which removes exactly the leading
segment whenever the path starts with Storage/ — and then strips leading and
trailing slash characters; a path containing no Storage/ substring is
changed only by that slash stripping. -/
theorem delete_storage_relative_path_amended (p : String) :
    (strStartsWith p "Storage/" = true →
      delete_storage_relative_path p = String.mk (pyStripSlashes (p.data.drop 8)))
    ∧ (containsOccurrence "Storage/".data p.data = false →
      delete_storage_relative_path p = String.mk (pyStripSlashes p.data))
    ∧ delete_storage_relative_path "Storage/Backups/old-backup.zip"
        = "Backups/old-backup.zip"
    ∧ delete_storage_endpoint "https://portal" "Storage/Backups/old-backup.zip"
        = "https://portal/api/v1/storage/Backups/old-backup.zip" := by
  refine ⟨?_, ?_, by decide, by decide⟩
  · intro h
    unfold strStartsWith at h
    unfold delete_storage_relative_path
    rw [replaceFirstOcc_of_isPrefix "Storage/".data p.data (by decide) h]
    norm_num [show "Storage/".data.length = 8 from by decide]
  · intro h
    unfold delete_storage_relative_path
    rw [replaceFirstOcc_of_not_contains "Storage/".data [] p.data h]

/-- Claim C8: when the backup task succeeds and the backup download
succeeds, the outcome of the subsequent storage-file deletion never changes
the result of backup_project: it returns the downloaded backup path whether
the deletion succeeds or raises; a concrete failing deletion is evaluated. -/
theorem backup_storage_delete_nonfatal (tk : String) (ws : TaskStatus) (ofn : String)
    (backup_path : String) (delete_result : Except String Bool) :
    (tk ≠ "" → ofn ≠ "" →
      project_backup_project (some tk) (.ok ws) (some ofn) (.ok backup_path) delete_result
        = .ok backup_path)
    ∧ project_backup_project (some "T1")
        (.ok { isSucceeded := some true, isWorking := false, overallProgress := 100,
               maxOverallProgress := 100, statusText := "", taskName := "backup" })
        (some "Storage/Backups/docs-backup-01-01-2026_00-00-00.zip")
        (.ok "./backups/docs-backup-01-01-2026_00-00-00.zip") (.error "HTTP 500")
        = .ok "./backups/docs-backup-01-01-2026_00-00-00.zip" := by
  constructor
  · intro h1 h2
    cases delete_result <;> simp [project_backup_project, h1, h2]
  · rfl

/-- Claim C10: a call to upload_to_tribble with no explicit pdf_path on a
publication in its initial state (no successful download_pdf has recorded a
last export path) raises the ValueError of the guard and sends no request to
the ingestion service. -/
theorem upload_requires_recorded_pdf_path (title : String) (label : Option String)
    (file_exists : String → Bool) :
    upload_to_tribble initial_publication_state title label none file_exists
      = (.error (.valueError
          "No PDF file available. Run export_to_pdf() first or provide pdf_path."), []) := by
  rfl

/-- No event of the per-publication reconciliation step is a task-poller
invocation: the wait_for_task call site of run_publications passes the
keyword max_wait_seconds, which wait_for_task does not accept, so the call
raises TypeError inside the try block and the except handler swallows it. -/
theorem reconcile_publication_no_poll (existing : List String) (project_id pub_id : String)
    (ctk : Option String) (e : ReconEvent)
    (he : e ∈ reconcile_publication existing project_id pub_id ctk) :
    isPollEvent e = false := by
  have hk : kwargsAccepted waitForTaskParamNames reconcileWaitKwargNames = false := by decide
  unfold reconcile_publication at he
  split at he
  · simp at he
  · simp only [List.mem_cons] at he
    rcases he with rfl | he
    · rfl
    · cases ctk with
      | none => simp at he
      | some tk =>
        simp only [hk, Bool.false_eq_true, if_false] at he
        split at he
        · simp at he
        · simp only [List.mem_singleton] at he
          subst he
          rfl

/-- Claim C2 (code bug): the reconciliation pass of run_publications never
blocks on the task poller after creating a missing publication.  The keyword
binding of the wait_for_task call at lines 1479-1483 is rejected (its
max_wait_seconds keyword names no parameter of wait_for_task), so Python
raises TypeError before any polling, the except handler logs it as a
creation failure, and the loop moves on: no reconciliation trace contains a
poller invocation.  On the concrete configuration with project docs present
remotely and publication guide absent, the pass performs the
create_publication call and then records the swallowed failure instead of
awaiting the creation task. -/
theorem publication_creation_wait_never_runs :
    kwargsAccepted waitForTaskParamNames reconcileWaitKwargNames = false
    ∧ (∀ config remote create_task_key,
        (run_publications_reconcile config remote create_task_key).countP isPollEvent = 0)
    ∧ run_publications_reconcile c2ExampleConfig c2ExampleRemote c2ExampleCreate
        = [.createRequested "docs" "guide", .creationError "guide"] := by
  refine ⟨by decide, ?_, by decide⟩
  intro config remote create_task_key
  rw [List.countP_eq_zero]
  intro e he
  rw [Bool.not_eq_true]
  simp only [run_publications_reconcile] at he
  rw [List.mem_flatMap] at he
  obtain ⟨kv, -, hkv⟩ := he
  obtain ⟨k, pd⟩ := kv
  cases pd with
  | none => simp at hkv
  | some project_data =>
    simp only at hkv
    split at hkv
    · rw [List.mem_flatMap] at hkv
      obtain ⟨pub, -, hpub⟩ := hkv
      obtain ⟨pid, pcfg⟩ := pub
      cases pcfg with
      | none => simp at hpub
      | some pc =>
        exact reconcile_publication_no_poll _ _ _ _ _ hpub
    · simp at hkv
